import Mathlib

/-!
Verification of the MX block-scaled tensor dispatch handlers
(`torchao/prototype/mx_formats/mx_ops.py`) and the QAT fake-quantized
linear layers (`torchao/quantization/prototype/qat/api.py`).

Tensors are shallowly embedded: a tensor is a dtype tag, a logical shape,
a contiguity flag and a flat list of rational element values.  Machine
floating point is modelled by exact rationals; the claims under study are
structural (which operands are decoded, which fields are preserved, which
configurations are rejected), not about floating-point rounding error.
-/

namespace TorchaoSpec

/-- High-precision / storage dtype tags used by the code under study. -/
inductive DType where
  | float32
  | float16
  | bfloat16
  | float64
  | int8
  | int32
  deriving DecidableEq, Repr

/-- Element-format tags of an MX tensor (`_elem_dtype`); the two fp4
formats are the ones `mx_view_op` special-cases. -/
inductive ElemDType where
  | fp8_e4m3
  | fp8_e5m2
  | fp4_e2m1
  | fp4_e3m0
  deriving DecidableEq, Repr

/-- A host-runtime tensor: dtype, logical shape, contiguity flag and flat
row-major element values. -/
structure Tensor where
  dtype : DType
  shape : List Nat
  is_contiguous : Bool
  vals : List ℚ
  deriving DecidableEq, Repr

/-- The MX block-scaled tensor: per-block biased exponents (`_scale_e8m0`,
one byte-encoded exponent per block), packed element data (`_data`, kept
here as logical element values), the element format, the block size and
the original high-precision dtype it decodes back to. -/
structure MXTensor where
  scale_e8m0 : List Nat
  data : Tensor
  elem_dtype : ElemDType
  block_size : Nat
  orig_dtype : DType
  deriving DecidableEq, Repr

/-- An argument reaching a dispatch handler: either a plain tensor or an
MX block-scaled tensor. -/
inductive Value where
  | plain : Tensor → Value
  | mx : MXTensor → Value
  deriving DecidableEq, Repr

/-- Whether a dispatch argument is a block-scaled (MX) tensor
(`isinstance(x, MXTensor)`). -/
def Value.isMX : Value → Bool
  | .plain _ => false
  | .mx _ => true

/-- Modelled from the spec: `to_high_precision` / `MXTensor.to_dtype`
(defined in `mx_tensor.py`, which is outside the given sources): decode
each element, multiply it by `2^exponent` of its block (the stored e8m0
byte is bias-127 adjusted), and cast to the target dtype.  Data is kept
as logical element values, so decoding is the per-block power-of-two
scaling plus the dtype change. -/
def MXTensor.to_dtype (m : MXTensor) (target : DType) : Tensor :=
  { dtype := target
    shape := m.data.shape
    is_contiguous := m.data.is_contiguous
    vals := (m.data.vals.enum.map fun p =>
      p.2 * (2 : ℚ) ^ ((m.scale_e8m0.getD (p.1 / m.block_size) 0 : ℤ) - 127)) }

/-- Modelled from the spec: `tensor_size_hp_to_fp4x2` (defined in
`mx_tensor.py`, outside the given sources): fp4 formats store two
elements per byte, so the logical shape is halved along the packed axis —
the last axis when the data is contiguous, the first otherwise. -/
def tensor_size_hp_to_fp4x2 (size : List Nat) (contiguous : Bool) : List Nat :=
  if contiguous then
    match size with
    | [] => []
    | l => l.dropLast ++ [l.getLast! / 2]
  else
    match size with
    | [] => []
    | a :: rest => a / 2 :: rest

/-- 2-D transpose of the host tensor (`Tensor.t()`): swap the first two
axes.  Tensors of rank below 2 are returned unchanged, matching the host
runtime's `t()` on 0-D/1-D tensors. -/
def Tensor.t (x : Tensor) : Tensor :=
  match x.shape with
  | r :: c :: rest =>
    { dtype := x.dtype
      shape := c :: r :: rest
      is_contiguous := false
      vals := (List.range c).flatMap fun i =>
        (List.range r).map fun j => x.vals.getD (j * c + i) 0 }
  | _ => x

/-- `mx_desugar_op` (registered for `aten.detach.default`): apply the
underlying aten op only to the packed data and rewrap, preserving the
scale, element format, block size and original dtype. -/
def mx_desugar_op (aten_op : Tensor → Tensor) (old : MXTensor) : MXTensor :=
  { scale_e8m0 := old.scale_e8m0
    data := aten_op old.data
    elem_dtype := old.elem_dtype
    block_size := old.block_size
    orig_dtype := old.orig_dtype }

/-- `mx_mm` (registered for `aten.mm.default` / `aten.matmul.default`):
assert both operands are MX tensors, decode each to its own recorded
original dtype, delegate to the native op, and return the plain result
without re-wrapping. -/
def mx_mm (aten_op : Tensor → Tensor → Tensor) (a b : Value) :
    Except String Tensor :=
  match a, b with
  | .mx ma, .mx mb =>
    .ok (aten_op (ma.to_dtype ma.orig_dtype) (mb.to_dtype mb.orig_dtype))
  | _, _ => .error "mx_mm requires both operands to be MXTensor"

/-- `mx_addmm` (registered for `aten.addmm.default`): the second and third
operands must be MX tensors; decode them, delegate, return a plain
result. -/
def mx_addmm (aten_op : Tensor → Tensor → Tensor → Tensor)
    (a : Tensor) (b c : Value) : Except String Tensor :=
  match b, c with
  | .mx mb, .mx mc =>
    .ok (aten_op a (mb.to_dtype mb.orig_dtype) (mc.to_dtype mc.orig_dtype))
  | _, _ => .error "mx_addmm requires the mat operands to be MXTensor"

/-- `mx_t` (registered for `aten.t.default`): transpose only the packed
data; the scale and all other metadata are passed through unchanged. -/
def mx_t (old : MXTensor) : MXTensor :=
  { scale_e8m0 := old.scale_e8m0
    data := old.data.t
    elem_dtype := old.elem_dtype
    block_size := old.block_size
    orig_dtype := old.orig_dtype }

mutual

/-- A pytree of dispatch arguments, as traversed by
`torch.utils._pytree.tree_map`: leaves are values, interior nodes are
nested containers (given mutually with their child lists). -/
inductive PyTree where
  | leaf : Value → PyTree
  | node : PyTreeList → PyTree
  deriving Repr

/-- Children of a pytree node. -/
inductive PyTreeList where
  | nil : PyTreeList
  | cons : PyTree → PyTreeList → PyTreeList
  deriving Repr

end

/-- The `unwrap` closure of `mx_cast_up_op`: decode an MX tensor to its
own original dtype, leave every other value unchanged. -/
def unwrapValue : Value → Value
  | .mx m => .plain (m.to_dtype m.orig_dtype)
  | v => v

mutual

/-- `tree_map`: apply a value transform to every leaf of a pytree,
preserving the nesting structure. -/
def treeMap (f : Value → Value) : PyTree → PyTree
  | .leaf v => .leaf (f v)
  | .node ts => .node (treeMapList f ts)

/-- `tree_map` over a node's children. -/
def treeMapList (f : Value → Value) : PyTreeList → PyTreeList
  | .nil => .nil
  | .cons t ts => .cons (treeMap f t) (treeMapList f ts)

end

mutual

/-- Number of MX-tensor leaves anywhere in a pytree. -/
def mxLeafCount : PyTree → Nat
  | .leaf v => if v.isMX then 1 else 0
  | .node ts => mxLeafCountList ts

/-- Number of MX-tensor leaves in a node's children. -/
def mxLeafCountList : PyTreeList → Nat
  | .nil => 0
  | .cons t ts => mxLeafCount t + mxLeafCountList ts

end

/-- `mx_cast_up_op` (registered for `aten.sum.dim_IntList`): unwrap every
MX tensor found anywhere in the argument and keyword-argument trees to
its original dtype, delegate the op to the decoded arguments, and return
the delegated (plain) result. -/
def mx_cast_up_op (aten_op : PyTree → PyTree → Tensor)
    (args kwargs : PyTree) : Tensor :=
  aten_op (treeMap unwrapValue args) (treeMap unwrapValue kwargs)

/-- `mx_view_op` (registered for `aten.view.default`): for the two fp4
packed element formats translate the requested logical shape to the
physical byte-packed shape first (taking the data's contiguity into
account); otherwise pass the requested shape through; in both cases
delegate to the native view on the packed data and rewrap with the
input's metadata. -/
def mx_view_op (aten_op : Tensor → List Nat → Tensor)
    (x : MXTensor) (size : List Nat) : MXTensor :=
  let new_size :=
    if x.elem_dtype = ElemDType.fp4_e2m1 ∨ x.elem_dtype = ElemDType.fp4_e3m0 then
      tensor_size_hp_to_fp4x2 size x.data.is_contiguous
    else
      size
  { scale_e8m0 := x.scale_e8m0
    data := aten_op x.data new_size
    elem_dtype := x.elem_dtype
    block_size := x.block_size
    orig_dtype := x.orig_dtype }

/-- `autocast_to_copy` (registered for `aten._to_copy.default`): the first
argument must be an MX tensor and the keyword arguments must be exactly a
single `dtype` entry whose value is float16 or bfloat16; on success the
result is a new MX tensor sharing the input's scale, data, element format
and block size, with only the declared original dtype replaced by the
requested target. -/
def autocast_to_copy (arg0 : Value) (kwargs : List (String × DType)) :
    Except String MXTensor :=
  match arg0 with
  | .plain _ => .error "autocast_to_copy requires an MXTensor input"
  | .mx m =>
    match kwargs with
    | [(k, d)] =>
      if k = "dtype" then
        if d = DType.float16 ∨ d = DType.bfloat16 then
          .ok { scale_e8m0 := m.scale_e8m0
                data := m.data
                elem_dtype := m.elem_dtype
                block_size := m.block_size
                orig_dtype := d }
        else
          .error "Only support floating point conversion for autocast w/ MXTensor"
      else
        .error "Only support dtype kwarg for autocast"
    | _ => .error "Only support dtype kwarg for autocast"

/-! ## QAT numeric primitives

A weight is a matrix `List (List ℚ)` (`out_features` rows of length
`in_features`); an activation is a matrix of tokens.  The fake-quant
helper functions imported by `qat/api.py` from `qat/utils.py` and
`quantization/utils.py` are outside the given sources and are modelled
from the spec (§4.1). -/

/-- Minimum of a list of rationals (0 for the empty list). -/
def listMin : List ℚ → ℚ
  | [] => 0
  | a :: t => t.foldl min a

/-- Maximum of a list of rationals (0 for the empty list). -/
def listMax : List ℚ → ℚ
  | [] => 0
  | a :: t => t.foldl max a

/-- Maximum absolute value of a list of rationals. -/
def maxAbs (l : List ℚ) : ℚ := listMax (l.map fun a => |a|)

/-- Clamp an integer to `[lo, hi]`. -/
def clampZ (lo hi q : ℤ) : ℤ := max lo (min hi q)

/-- Split a row into contiguous chunks, carrying the remaining capacity of
the current chunk (structural recursion so concrete witnesses evaluate by
`rfl`). -/
def chunksAux {α : Type} (n : Nat) : List α → Nat → List α → List (List α)
  | [], _, acc => [acc.reverse]
  | x :: xs, 0, acc => acc.reverse :: chunksAux n xs (n - 1) [x]
  | x :: xs, j + 1, acc => chunksAux n xs j (x :: acc)

/-- Split a row into contiguous groups of `n` elements (the reshape of the
last dimension into groups used by every grouped quant primitive). -/
def chunksOf {α : Type} (n : Nat) (l : List α) : List (List α) :=
  match l with
  | [] => []
  | x :: xs => chunksAux n xs (n - 1) [x]

/-- Rejoin the groups of a row. -/
def unchunk {α : Type} (l : List (List α)) : List α := l.flatten

/-- Epsilon floor keeping a computed scale away from zero. -/
def scaleEps : ℚ := 1 / 1000000

/-- Modelled from the spec: `get_group_qparams_symmetric(w, n_bit,
groupsize)` (defined in `quantization/utils.py`, outside the given
sources): reshape each row into groups of `groupsize`; per group the
scale is `max |group| / qmax` with `qmax = 2^(n_bit-1) - 1`, floored at a
small epsilon, and the zero-point is always 0. -/
def get_group_qparams_symmetric (w : List (List ℚ)) (n_bit groupsize : Nat) :
    List (List ℚ) × List (List ℚ) :=
  let qmax : ℚ := (2 : ℚ) ^ (n_bit - 1) - 1
  let scales := w.map fun row =>
    (chunksOf groupsize row).map fun g => max (maxAbs g / qmax) scaleEps
  let zeros := scales.map fun row => row.map fun _ => (0 : ℚ)
  (scales, zeros)

/-- Modelled from the spec: `_choose_qparams_per_token_asymmetric(x)`
(defined in `qat/utils.py`, outside the given sources): per token,
`scale = (max - min) / 255` and
`zero_point = qmin - round(min / scale)` clamped to the 8-bit integer
range `[-128, 127]`. -/
def choose_qparams_per_token_asymmetric (x : List (List ℚ)) :
    List ℚ × List ℤ :=
  let scales := x.map fun row => (listMax row - listMin row) / 255
  let zps := (x.zip scales).map fun p =>
    clampZ (-128) 127 ((-128) - round (listMin p.1 / p.2))
  (scales, zps)

/-- Modelled from the spec: `_fake_quantize_per_token(x, scales, zps,
qmin, qmax)` (defined in `qat/utils.py`, outside the given sources): per
token element, `round(x / scale) + zp`, clamp to `[qmin, qmax]`, then
`(clamped - zp) * scale`. -/
def fake_quantize_per_token (x : List (List ℚ)) (scales : List ℚ)
    (zps : List ℤ) (qmin qmax : ℤ) : List (List ℚ) :=
  (x.zip (scales.zip zps)).map fun p =>
    p.1.map fun v =>
      let s := p.2.1
      let zp := p.2.2
      let q := clampZ qmin qmax (round (v / s) + zp)
      ((q - zp : ℤ) : ℚ) * s

/-- Which domain the zero-point lives in for grouped fake quantization. -/
inductive ZeroPointDomain where
  | int
  | float
  deriving DecidableEq, Repr

/-- Modelled from the spec: `_fake_quantize_per_channel_group(w, scales,
zps, qmin, qmax, groupsize, domain)` (defined in `qat/utils.py`, outside
the given sources): per group element, with an integer-domain zero-point
quantize as `round(x / scale) + zp` and dequantize as `(q - zp) * scale`;
with a float-domain zero-point quantize as `round((x - zp) / scale)` and
dequantize as `q * scale + zp`; the quantized value is clamped to
`[qmin, qmax]` in both domains. -/
def fake_quantize_per_channel_group (w : List (List ℚ))
    (scales zps : List (List ℚ)) (qmin qmax : ℤ) (groupsize : Nat)
    (domain : ZeroPointDomain) : List (List ℚ) :=
  (w.zip (scales.zip zps)).map fun p =>
    unchunk (((chunksOf groupsize p.1).zip (p.2.1.zip p.2.2)).map fun gp =>
      gp.1.map fun v =>
        let s := gp.2.1
        let zp := gp.2.2
        match domain with
        | .int =>
          let q := clampZ qmin qmax (round (v / s) + round zp)
          ((q - round zp : ℤ) : ℚ) * s
        | .float =>
          let q := clampZ qmin qmax (round ((v - zp) / s))
          (q : ℚ) * s + zp)

/-- Modelled from the spec: `get_groupwise_affine_qparams(w, n_bit,
groupsize)` (defined in `quantization/GPTQ.py`, outside the given
sources): per group of `groupsize` along the last dimension, 4-bit-style
asymmetric parameters with `scale = (max - min) / (2^n_bit - 1)` and a
float-domain zero-point equal to the group minimum (the real value mapped
to quantized 0). -/
def get_groupwise_affine_qparams (w : List (List ℚ)) (n_bit groupsize : Nat) :
    List (List ℚ) × List (List ℚ) :=
  let qmax : ℚ := (2 : ℚ) ^ n_bit - 1
  let scales := w.map fun row =>
    (chunksOf groupsize row).map fun g =>
      max ((listMax g - listMin g) / qmax) scaleEps
  let zps := w.map fun row => (chunksOf groupsize row).map listMin
  (scales, zps)

/-- Modelled from the spec: the per-channel-group quantize step used by
`convert` (`_quantized_decomposed_quantize_per_channel_group_wrapper`,
outside the given sources): quantize each group element to the integer
grid, `clamp(round(x / scale) + zp, qmin, qmax)`. -/
def quantize_per_channel_group (w : List (List ℚ))
    (scales zps : List (List ℚ)) (qmin qmax : ℤ) (groupsize : Nat) :
    List (List ℤ) :=
  (w.zip (scales.zip zps)).map fun p =>
    unchunk (((chunksOf groupsize p.1).zip (p.2.1.zip p.2.2)).map fun gp =>
      gp.1.map fun v =>
        clampZ qmin qmax (round (v / gp.2.1) + round gp.2.2))

/-- Matrix product `F.linear(x, w) = x · wᵀ`: row `i`, column `j` is the
dot product of token `i` of `x` with row `j` of `w`. -/
def linearF (x w : List (List ℚ)) : List (List ℚ) :=
  x.map fun row => w.map fun wrow =>
    ((row.zip wrow).map fun p => p.1 * p.2).sum

/-- `_get_qmin_qmax(n_bit)`: the signed `n_bit` integer range. -/
def get_qmin_qmax (n_bit : Nat) : ℤ × ℤ :=
  (-(2 ^ (n_bit - 1) : ℤ), (2 ^ (n_bit - 1) : ℤ) - 1)

/-! ## QAT linear layers -/

/-- `Int8DynActInt4WeightQATLinear`: a linear layer with int8 dynamic
per-token fake-quantized activations and int4 grouped per-channel
fake-quantized weights. -/
structure Int8DynActInt4WeightQATLinear where
  in_features : Nat
  out_features : Nat
  groupsize : Nat
  precision : DType
  scales_precision : DType
  weight : List (List ℚ)
  fake_quant_enabled : Bool
  deriving DecidableEq, Repr

namespace Int8DynActInt4WeightQATLinear

/-- `Int8DynActInt4WeightQATLinear.__init__`: reject `in_features` not
divisible by `groupsize`, then reject `bias=True`; on success the
fake-quant flag starts enabled.  The randomly initialized weight supplied
by the host `nn.Linear` base class is taken as a parameter. -/
def init (in_features out_features : Nat) (bias : Bool) (groupsize : Nat)
    (precision scales_precision : DType) (weight : List (List ℚ)) :
    Except String Int8DynActInt4WeightQATLinear :=
  if in_features % groupsize ≠ 0 then
    .error "require in_features % groupsize == 0"
  else if bias then
    .error "require bias=False"
  else
    .ok { in_features := in_features
          out_features := out_features
          groupsize := groupsize
          precision := precision
          scales_precision := scales_precision
          weight := weight
          fake_quant_enabled := true }

/-- `enable_fake_quant(enabled)` (the source defaults `enabled` to true). -/
def enable_fake_quant (l : Int8DynActInt4WeightQATLinear)
    (enabled : Bool) : Int8DynActInt4WeightQATLinear :=
  { l with fake_quant_enabled := enabled }

/-- `disable_fake_quant()`. -/
def disable_fake_quant (l : Int8DynActInt4WeightQATLinear) :
    Int8DynActInt4WeightQATLinear :=
  l.enable_fake_quant false

/-- `Int8DynActInt4WeightQATLinear.forward(x)`: when the fake-quant flag
is on, dynamically compute per-token asymmetric qparams from the current
input and fake-quantize it to 8 bits, compute symmetric per-group qparams
from the current weight and fake-quantize it to 4 bits; when the flag is
off, pass both through unmodified; always return `F.linear(x_fq, w_fq)`. -/
def forward (l : Int8DynActInt4WeightQATLinear) (x : List (List ℚ)) :
    List (List ℚ) :=
  let x_fq :=
    if l.fake_quant_enabled then
      let p := choose_qparams_per_token_asymmetric x
      let qr := get_qmin_qmax 8
      fake_quantize_per_token x p.1 p.2 qr.1 qr.2
    else x
  let w_fq :=
    if l.fake_quant_enabled then
      let wp := get_group_qparams_symmetric l.weight 4 l.groupsize
      let qr := get_qmin_qmax 4
      fake_quantize_per_channel_group l.weight wp.1 wp.2 qr.1 qr.2
        l.groupsize ZeroPointDomain.int
    else l.weight
  linearF x_fq w_fq

end Int8DynActInt4WeightQATLinear

/-- Modelled from the spec: `Int8DynActInt4WeightLinear` (defined in
`quantization/GPTQ.py`, outside the given sources) as configured by
`_convert_qat_linear_8da4w`: the true quantized layer holding the
integer weight and its per-group qparams as fixed buffers. -/
structure Int8DynActInt4WeightLinear where
  in_features : Nat
  out_features : Nat
  groupsize : Nat
  precision : DType
  scales_precision : DType
  weight : List (List ℤ)
  scales : List (List ℚ)
  zeros : List (List ℚ)
  deriving DecidableEq, Repr

/-- The body of the `isinstance` branch of `_convert_qat_linear_8da4w`:
build the quantized replacement for one QAT layer — preserve the shape
and precision configuration, compute symmetric 4-bit per-group qparams
from the layer's current weight, and quantize the weight per channel
group with exactly those parameters (`qmin = -8`, `qmax = 7`). -/
def convertLayer8da4w (child : Int8DynActInt4WeightQATLinear) :
    Int8DynActInt4WeightLinear :=
  let qr := get_qmin_qmax 4
  let p := get_group_qparams_symmetric child.weight 4 child.groupsize
  { in_features := child.in_features
    out_features := child.out_features
    groupsize := child.groupsize
    precision := child.precision
    scales_precision := child.scales_precision
    weight := quantize_per_channel_group child.weight p.1 p.2 qr.1 qr.2
      child.groupsize
    scales := p.1
    zeros := p.2 }

mutual

/-- A module tree: a QAT linear leaf, a converted quantized-linear leaf,
or a container with named children (any other `nn.Module`). -/
inductive Module where
  | qat8 : Int8DynActInt4WeightQATLinear → Module
  | quantized8 : Int8DynActInt4WeightLinear → Module
  | container : ModuleList → Module

/-- The named children of a container module. -/
inductive ModuleList where
  | nil : ModuleList
  | cons : String → Module → ModuleList → ModuleList

end

mutual

/-- `_convert_qat_linear_8da4w(module)`: for each named child, replace a
`Int8DynActInt4WeightQATLinear` with the quantized layer built by
`convertLayer8da4w`, and recurse into every other child.  A module with
no children (a leaf) is returned unchanged. -/
def convert_qat_linear_8da4w : Module → Module
  | .container cs => .container (convertChildren8da4w cs)
  | m => m

/-- The `named_children` loop of `_convert_qat_linear_8da4w`. -/
def convertChildren8da4w : ModuleList → ModuleList
  | .nil => .nil
  | .cons n (.qat8 l) rest =>
    .cons n (.quantized8 (convertLayer8da4w l)) (convertChildren8da4w rest)
  | .cons n c rest =>
    .cons n (convert_qat_linear_8da4w c) (convertChildren8da4w rest)

end

mutual

/-- Number of QAT linear layers strictly below the root of a module. -/
def qatBelow : Module → Nat
  | .container cs => qatCountList cs
  | _ => 0

/-- Number of QAT linear layers in a child list, at any depth. -/
def qatCountList : ModuleList → Nat
  | .nil => 0
  | .cons _ (.qat8 _) rest => 1 + qatCountList rest
  | .cons _ c rest => qatBelow c + qatCountList rest

end

/-- Modelled from the spec: `_check_linear_int4_k(k, groupsize,
inner_k_tiles)` (defined in `quantization/GPTQ.py`, outside the given
sources): per the spec's failure conditions, `in_features` must be
divisible by `groupsize` for the int4 tinygemm-style layout. -/
def check_linear_int4_k (k groupsize : Nat) : Bool :=
  k % groupsize = 0

/-- `Int4WeightOnlyQATLinear`: a linear layer whose weight is fake
quantized to 4-bit asymmetric grouped per channel on every forward. -/
structure Int4WeightOnlyQATLinear where
  in_features : Nat
  out_features : Nat
  groupsize : Nat
  inner_k_tiles : Nat
  precision : DType
  scales_precision : DType
  weight : List (List ℚ)
  fake_quant_enabled : Bool
  deriving DecidableEq, Repr

namespace Int4WeightOnlyQATLinear

/-- `Int4WeightOnlyQATLinear.__init__`: reject `bias=True`, reject a
non-bf16 `scales_precision`, and reject `in_features` failing the int4
`k` check against `groupsize`; on success the fake-quant flag starts
enabled. -/
def init (in_features out_features : Nat) (bias : Bool)
    (groupsize inner_k_tiles : Nat) (precision scales_precision : DType)
    (weight : List (List ℚ)) : Except String Int4WeightOnlyQATLinear :=
  if bias then
    .error "require bias=False"
  else if scales_precision ≠ DType.bfloat16 then
    .error "only bf16 is supported for scales"
  else if ¬ check_linear_int4_k in_features groupsize then
    .error "Padding for QAT 4w is not supported yet"
  else
    .ok { in_features := in_features
          out_features := out_features
          groupsize := groupsize
          inner_k_tiles := inner_k_tiles
          precision := precision
          scales_precision := scales_precision
          weight := weight
          fake_quant_enabled := true }

/-- `enable_fake_quant(enabled)` (the source defaults `enabled` to true). -/
def enable_fake_quant (l : Int4WeightOnlyQATLinear)
    (enabled : Bool) : Int4WeightOnlyQATLinear :=
  { l with fake_quant_enabled := enabled }

/-- `disable_fake_quant()`. -/
def disable_fake_quant (l : Int4WeightOnlyQATLinear) :
    Int4WeightOnlyQATLinear :=
  l.enable_fake_quant false

/-- `Int4WeightOnlyQATLinear.forward(x)`: compute groupwise affine
qparams from the current weight, fake-quantize the weight with a
float-domain zero-point and `qmin = 0`, `qmax = 15`, and return
`F.linear(x, w_fq)`.  The fake-quant flag is never consulted. -/
def forward (l : Int4WeightOnlyQATLinear) (x : List (List ℚ)) :
    List (List ℚ) :=
  let p := get_groupwise_affine_qparams l.weight 4 l.groupsize
  let w_fq := fake_quantize_per_channel_group l.weight p.1 p.2 0 15
    l.groupsize ZeroPointDomain.float
  linearF x w_fq

end Int4WeightOnlyQATLinear

/-- Configuration state of `Int4WeightOnlyQATQuantizer`. -/
structure Int4WeightOnlyQATQuantizer where
  groupsize : Nat
  inner_k_tiles : Nat
  precision : DType
  scales_precision : DType
  deriving DecidableEq, Repr

/-- `Int4WeightOnlyQATQuantizer.__init__`: reject `inner_k_tiles` outside
`{2, 4, 8}`, then reject `groupsize` outside `{32, 64, 128, 256}`. -/
def Int4WeightOnlyQATQuantizer.init (groupsize inner_k_tiles : Nat)
    (precision scales_precision : DType) :
    Except String Int4WeightOnlyQATQuantizer :=
  if inner_k_tiles ∉ [2, 4, 8] then
    .error "inner_k_tiles must be 2, 4 or 8"
  else if groupsize ∉ [32, 64, 128, 256] then
    .error "groupsize must be 32, 64, 128 or 256"
  else
    .ok { groupsize := groupsize
          inner_k_tiles := inner_k_tiles
          precision := precision
          scales_precision := scales_precision }

/-- Whether an `Except` result is a success. -/
def exceptOk {α : Type} : Except String α → Bool
  | .ok _ => true
  | .error _ => false

/-! ## Helper lemmas -/

mutual

theorem mxLeafCount_treeMap_unwrap_zero :
    ∀ t : PyTree, mxLeafCount (treeMap unwrapValue t) = 0
  | .leaf (.plain _) => rfl
  | .leaf (.mx _) => rfl
  | .node ts => mxLeafCountList_treeMapList_unwrap_zero ts

theorem mxLeafCountList_treeMapList_unwrap_zero :
    ∀ ts : PyTreeList, mxLeafCountList (treeMapList unwrapValue ts) = 0
  | .nil => rfl
  | .cons t ts => by
    simp [treeMapList, mxLeafCountList,
      mxLeafCount_treeMap_unwrap_zero t,
      mxLeafCountList_treeMapList_unwrap_zero ts]

end

mutual

theorem qatBelow_convert_zero :
    ∀ m : Module, qatBelow (convert_qat_linear_8da4w m) = 0
  | .qat8 _ => rfl
  | .quantized8 _ => rfl
  | .container cs => qatCountList_convertChildren_zero cs

theorem qatCountList_convertChildren_zero :
    ∀ cs : ModuleList, qatCountList (convertChildren8da4w cs) = 0
  | .nil => rfl
  | .cons _ (.qat8 _) rest => by
    simpa [convertChildren8da4w, qatCountList, qatBelow] using
      qatCountList_convertChildren_zero rest
  | .cons _ (.quantized8 _) rest => by
    simpa [convertChildren8da4w, qatCountList, qatBelow] using
      qatCountList_convertChildren_zero rest
  | .cons _ (.container cs') rest => by
    simp [convertChildren8da4w, convert_qat_linear_8da4w, qatCountList,
      qatBelow, qatCountList_convertChildren_zero cs',
      qatCountList_convertChildren_zero rest]

end

/-! ## Claim theorems: MX dispatch handlers -/

/-- C5: the matmul/mm handler requires both operands to be block-scaled
tensors and fails otherwise; when both are block-scaled it decodes each
operand to its own recorded original high-precision dtype, delegates to
the native matmul on the decoded tensors, and returns the native result
as a plain high-precision tensor that is not re-wrapped. -/
theorem C5_mx_mm :
    (∀ (f : Tensor → Tensor → Tensor) (a b : MXTensor),
      mx_mm f (.mx a) (.mx b) =
        .ok (f (a.to_dtype a.orig_dtype) (b.to_dtype b.orig_dtype))) ∧
    (∀ m : MXTensor, (m.to_dtype m.orig_dtype).dtype = m.orig_dtype) ∧
    (∀ (f : Tensor → Tensor → Tensor) (a b : Value),
      a.isMX = false ∨ b.isMX = false →
      exceptOk (mx_mm f a b) = false) := by
  refine ⟨fun _ _ _ => rfl, fun _ => rfl, fun f a b h => ?_⟩
  rcases a with t | m <;> rcases b with t' | m' <;>
    simp_all [mx_mm, exceptOk, Value.isMX]

/-- C6: the autocast `_to_copy` handler accepts only float16 and bfloat16
targets, given as the single `dtype` keyword argument on a block-scaled
first operand, and fails on every other target dtype, on any other
keyword-argument shape and on a non-block-scaled input; on success it
returns a new block-scaled tensor sharing the input's scale, data,
element format and block size, with only the declared original dtype
replaced by the target. -/
theorem C6_autocast_to_copy :
    (∀ (m : MXTensor) (d : DType), d = DType.float16 ∨ d = DType.bfloat16 →
      autocast_to_copy (.mx m) [("dtype", d)] =
        .ok { scale_e8m0 := m.scale_e8m0
              data := m.data
              elem_dtype := m.elem_dtype
              block_size := m.block_size
              orig_dtype := d }) ∧
    (∀ (m : MXTensor) (d : DType), d ≠ DType.float16 → d ≠ DType.bfloat16 →
      exceptOk (autocast_to_copy (.mx m) [("dtype", d)]) = false) ∧
    (∀ (t : Tensor) (kwargs : List (String × DType)),
      exceptOk (autocast_to_copy (.plain t) kwargs) = false) ∧
    (∀ (m : MXTensor) (kwargs : List (String × DType)),
      kwargs.map Prod.fst ≠ ["dtype"] →
      exceptOk (autocast_to_copy (.mx m) kwargs) = false) := by
  refine ⟨fun m d h => ?_, fun m d h1 h2 => ?_, fun t kwargs => rfl,
    fun m kwargs h => ?_⟩
  · rcases h with h | h <;> subst h <;> rfl
  · simp [autocast_to_copy, h1, h2, exceptOk]
  · match kwargs with
    | [] => rfl
    | [(k, d)] =>
      have hk : k ≠ "dtype" := by simpa using h
      simp [autocast_to_copy, hk, exceptOk]
    | (k₁, d₁) :: (k₂, d₂) :: rest => rfl

/-- C7: the detach handler applies the underlying operator only to the
packed data field and returns a new block-scaled tensor whose scale,
element format, block size and original dtype are field-for-field those
of the input. -/
theorem C7_mx_desugar_detach :
    ∀ (f : Tensor → Tensor) (m : MXTensor),
      (mx_desugar_op f m).data = f m.data ∧
      (mx_desugar_op f m).scale_e8m0 = m.scale_e8m0 ∧
      (mx_desugar_op f m).elem_dtype = m.elem_dtype ∧
      (mx_desugar_op f m).block_size = m.block_size ∧
      (mx_desugar_op f m).orig_dtype = m.orig_dtype :=
  fun _ _ => ⟨rfl, rfl, rfl, rfl, rfl⟩

/-- C8: the view handler translates the requested logical shape to the
physical byte-packed shape (taking contiguity into account) before
delegating when the element format is one of the two fp4 packed formats,
passes the shape through unchanged for every other element format, and in
both cases rewraps with the input's scale, element format, block size and
original dtype. -/
theorem C8_mx_view_op :
    (∀ (f : Tensor → List Nat → Tensor) (x : MXTensor) (size : List Nat),
      x.elem_dtype = ElemDType.fp4_e2m1 ∨ x.elem_dtype = ElemDType.fp4_e3m0 →
      mx_view_op f x size =
        { scale_e8m0 := x.scale_e8m0
          data := f x.data (tensor_size_hp_to_fp4x2 size x.data.is_contiguous)
          elem_dtype := x.elem_dtype
          block_size := x.block_size
          orig_dtype := x.orig_dtype }) ∧
    (∀ (f : Tensor → List Nat → Tensor) (x : MXTensor) (size : List Nat),
      x.elem_dtype ≠ ElemDType.fp4_e2m1 → x.elem_dtype ≠ ElemDType.fp4_e3m0 →
      mx_view_op f x size =
        { scale_e8m0 := x.scale_e8m0
          data := f x.data size
          elem_dtype := x.elem_dtype
          block_size := x.block_size
          orig_dtype := x.orig_dtype }) := by
  constructor
  · intro f x size h
    simp [mx_view_op, h]
  · intro f x size h1 h2
    simp [mx_view_op, h1, h2]

/-- C9: the dimensional-sum fallback handler decodes every block-scaled
tensor found anywhere in the positional and keyword argument trees
(nested structure included) to that tensor's own original dtype, leaves
every non-block-scaled value unchanged, delegates the operator to the
decoded trees, and returns the delegated plain result; after unwrapping
no block-scaled leaf remains anywhere in either tree. -/
theorem C9_mx_cast_up_op :
    (∀ (f : PyTree → PyTree → Tensor) (args kwargs : PyTree),
      mx_cast_up_op f args kwargs =
        f (treeMap unwrapValue args) (treeMap unwrapValue kwargs)) ∧
    (∀ m : MXTensor,
      unwrapValue (.mx m) = .plain (m.to_dtype m.orig_dtype)) ∧
    (∀ t : Tensor, unwrapValue (.plain t) = .plain t) ∧
    (∀ t : PyTree, mxLeafCount (treeMap unwrapValue t) = 0) :=
  ⟨fun _ _ _ => rfl, fun _ => rfl, fun _ => rfl,
    mxLeafCount_treeMap_unwrap_zero⟩

/-- C10: the 2-D transpose handler returns a new block-scaled tensor
whose packed data is the transpose of the input's packed data while the
per-block scale is passed through completely unchanged, and the element
format, block size and original dtype are preserved. -/
theorem C10_mx_t :
    ∀ m : MXTensor,
      (mx_t m).data = m.data.t ∧
      (mx_t m).scale_e8m0 = m.scale_e8m0 ∧
      (mx_t m).elem_dtype = m.elem_dtype ∧
      (mx_t m).block_size = m.block_size ∧
      (mx_t m).orig_dtype = m.orig_dtype :=
  fun _ => ⟨rfl, rfl, rfl, rfl, rfl⟩

/-! ## Concrete fixtures for witnesses -/

/-- A small plain tensor. -/
def tA : Tensor := ⟨DType.float32, [1, 2], true, [1, 2]⟩

/-- A small fp8 block-scaled tensor. -/
def mA : MXTensor := ⟨[127], ⟨DType.float32, [1, 2], true, [1, 2]⟩, ElemDType.fp8_e4m3, 2, DType.float32⟩

/-- A second fp8 block-scaled tensor with a different original dtype. -/
def mB : MXTensor := ⟨[128], ⟨DType.float32, [2, 1], true, [3, 4]⟩, ElemDType.fp8_e5m2, 2, DType.bfloat16⟩

/-- A small fp4 block-scaled tensor (packed element format). -/
def mFp4 : MXTensor := ⟨[127], ⟨DType.float32, [2, 2], true, [1, 2, 3, 4]⟩, ElemDType.fp4_e2m1, 4, DType.float32⟩

/-- A concrete stand-in for the native matmul the handler delegates to
(the handlers are parametric in the native op, as in the source). -/
def mmNative : Tensor → Tensor → Tensor := fun a _ => a

/-- A concrete stand-in for the native view op. -/
def viewNative : Tensor → List Nat → Tensor := fun t s => { t with shape := s }

/-- C5 witness: both handler paths at concrete inputs. -/
theorem C5_mx_mm_witness :
    mx_mm mmNative (.mx mA) (.mx mB) =
      .ok (mmNative (mA.to_dtype mA.orig_dtype) (mB.to_dtype mB.orig_dtype)) ∧
    ((Value.plain tA).isMX = false ∨ (Value.mx mB).isMX = false) ∧
    exceptOk (mx_mm mmNative (.plain tA) (.mx mB)) = false :=
  ⟨C5_mx_mm.1 mmNative mA mB, Or.inl rfl,
    C5_mx_mm.2.2 mmNative (.plain tA) (.mx mB) (Or.inl rfl)⟩

/-- C6 witness: a successful cast to float16, a rejected cast to float32,
and a rejected empty keyword-argument list, at concrete inputs. -/
theorem C6_autocast_to_copy_witness :
    autocast_to_copy (.mx mA) [("dtype", DType.float16)] =
      .ok { scale_e8m0 := mA.scale_e8m0
            data := mA.data
            elem_dtype := mA.elem_dtype
            block_size := mA.block_size
            orig_dtype := DType.float16 } ∧
    exceptOk (autocast_to_copy (.mx mA) [("dtype", DType.float32)]) = false ∧
    exceptOk (autocast_to_copy (.mx mA) []) = false :=
  ⟨C6_autocast_to_copy.1 mA DType.float16 (Or.inl rfl),
    C6_autocast_to_copy.2.1 mA DType.float32 (by decide) (by decide),
    C6_autocast_to_copy.2.2.2 mA [] (by decide)⟩

/-- C8 witness: the fp4 path and the non-fp4 path at concrete inputs. -/
theorem C8_mx_view_op_witness :
    (mFp4.elem_dtype = ElemDType.fp4_e2m1 ∨ mFp4.elem_dtype = ElemDType.fp4_e3m0) ∧
    mx_view_op viewNative mFp4 [4] =
      { scale_e8m0 := mFp4.scale_e8m0
        data := viewNative mFp4.data (tensor_size_hp_to_fp4x2 [4] mFp4.data.is_contiguous)
        elem_dtype := mFp4.elem_dtype
        block_size := mFp4.block_size
        orig_dtype := mFp4.orig_dtype } ∧
    mx_view_op viewNative mA [2] =
      { scale_e8m0 := mA.scale_e8m0
        data := viewNative mA.data [2]
        elem_dtype := mA.elem_dtype
        block_size := mA.block_size
        orig_dtype := mA.orig_dtype } :=
  ⟨Or.inl rfl,
    C8_mx_view_op.1 viewNative mFp4 [4] (Or.inl rfl),
    C8_mx_view_op.2 viewNative mA [2] (by decide) (by decide)⟩

/-! ## Claim theorems: QAT layers -/

/-- C1: for the int8-activation/int4-weight QAT linear layer, with the
fake-quant flag disabled `forward(x)` is exactly `F.linear` on the
unmodified input and weight; with the flag enabled it is `F.linear` on
the per-token 8-bit asymmetrically fake-quantized input (qparams chosen
from the current input, range `[-128, 127]`) and the per-group 4-bit
symmetrically fake-quantized weight (qparams chosen from the current
weight, range `[-8, 7]`, integer-domain zero-point); the flag is enabled
by default after construction. -/
theorem C1_int8da4w_forward :
    (∀ (l : Int8DynActInt4WeightQATLinear) (x : List (List ℚ)),
      l.fake_quant_enabled = false →
      l.forward x = linearF x l.weight) ∧
    (∀ (l : Int8DynActInt4WeightQATLinear) (x : List (List ℚ)),
      l.fake_quant_enabled = true →
      l.forward x =
        linearF
          (fake_quantize_per_token x
            (choose_qparams_per_token_asymmetric x).1
            (choose_qparams_per_token_asymmetric x).2 (-128) 127)
          (fake_quantize_per_channel_group l.weight
            (get_group_qparams_symmetric l.weight 4 l.groupsize).1
            (get_group_qparams_symmetric l.weight 4 l.groupsize).2
            (-8) 7 l.groupsize ZeroPointDomain.int)) ∧
    (∀ (i o : Nat) (b : Bool) (g : Nat) (p sp : DType)
      (w : List (List ℚ)) (l : Int8DynActInt4WeightQATLinear),
      Int8DynActInt4WeightQATLinear.init i o b g p sp w = .ok l →
      l.fake_quant_enabled = true) := by
  refine ⟨fun l x h => ?_, fun l x h => ?_, fun i o b g p sp w l h => ?_⟩
  · simp [Int8DynActInt4WeightQATLinear.forward, h]
  · simp only [Int8DynActInt4WeightQATLinear.forward, h, if_true]
    norm_num [get_qmin_qmax]
  · simp only [Int8DynActInt4WeightQATLinear.init] at h
    split_ifs at h
    all_goals
      first
      | exact Except.noConfusion h
      | (injection h with h2; subst h2; rfl)

/-- C1 witness: the disabled and enabled forward paths on a concrete
layer, and the default flag of a concretely constructed layer. -/
theorem C1_int8da4w_forward_witness :
    Int8DynActInt4WeightQATLinear.forward
        ⟨2, 1, 2, DType.float32, DType.float32, [[1, 2]], false⟩ [[3, 4]] =
      linearF [[3, 4]] [[1, 2]] ∧
    Int8DynActInt4WeightQATLinear.forward
        ⟨2, 1, 2, DType.float32, DType.float32, [[1, 2]], true⟩ [[3, 4]] =
      linearF
        (fake_quantize_per_token [[3, 4]]
          (choose_qparams_per_token_asymmetric [[3, 4]]).1
          (choose_qparams_per_token_asymmetric [[3, 4]]).2 (-128) 127)
        (fake_quantize_per_channel_group [[1, 2]]
          (get_group_qparams_symmetric [[1, 2]] 4 2).1
          (get_group_qparams_symmetric [[1, 2]] 4 2).2
          (-8) 7 2 ZeroPointDomain.int) ∧
    (⟨2, 1, 2, DType.float32, DType.float32, [[1, 2]], true⟩ :
        Int8DynActInt4WeightQATLinear).fake_quant_enabled = true :=
  ⟨C1_int8da4w_forward.1 _ [[3, 4]] rfl,
    C1_int8da4w_forward.2.1 _ [[3, 4]] rfl,
    C1_int8da4w_forward.2.2 2 1 false 2 DType.float32 DType.float32 [[1, 2]]
      _ rfl⟩

/-- C2: for the int4 weight-only QAT linear layer, `forward(x)` is the
same for every value of the fake-quant flag (the toggle has no observable
effect on the forward path), and always equals `F.linear` of the input
with the weight fake-quantized 4-bit asymmetrically per group with a
float-domain zero-point and `qmin = 0`, `qmax = 15`. -/
theorem C2_int4wo_forward :
    (∀ (l : Int4WeightOnlyQATLinear) (x : List (List ℚ)) (e₁ e₂ : Bool),
      ({ l with fake_quant_enabled := e₁ } : Int4WeightOnlyQATLinear).forward x =
        ({ l with fake_quant_enabled := e₂ } : Int4WeightOnlyQATLinear).forward x) ∧
    (∀ (l : Int4WeightOnlyQATLinear) (x : List (List ℚ)),
      l.forward x =
        linearF x
          (fake_quantize_per_channel_group l.weight
            (get_groupwise_affine_qparams l.weight 4 l.groupsize).1
            (get_groupwise_affine_qparams l.weight 4 l.groupsize).2
            0 15 l.groupsize ZeroPointDomain.float)) :=
  ⟨fun _ _ _ _ => rfl, fun _ _ => rfl⟩

/-- C3 counterexample: constructing `Int4WeightOnlyQATLinear` with
`bias = False` and bf16 scales — outside the claim's stated failure set
for this layer — still fails when `in_features = 100` does not satisfy
the int4 `k` check for `groupsize = 32`. -/
theorem C3_construction_counterexample :
    exceptOk (Int4WeightOnlyQATLinear.init 100 16 false 32 8
      DType.bfloat16 DType.bfloat16 [[1]]) = false ∧
    check_linear_int4_k 100 32 = false := by
  decide

/-- C3 (amended): construction fails eagerly exactly on the invalid
configurations — the 8da4w QAT layer iff `bias=True` or `in_features`
is not divisible by `groupsize`; the weight-only QAT layer iff
`bias=True`, or `scales_precision` is not bfloat16, or `in_features`
fails the int4 `k` check against `groupsize`; the weight-only quantizer
iff `inner_k_tiles` is outside `{2,4,8}` or `groupsize` is outside
`{32,64,128,256}`; in particular `groupsize=100` with `in_features=256`
is rejected. -/
theorem C3_construction_exact :
    (∀ (i o : Nat) (b : Bool) (g : Nat) (p sp : DType) (w : List (List ℚ)),
      exceptOk (Int8DynActInt4WeightQATLinear.init i o b g p sp w) = true ↔
        i % g = 0 ∧ b = false) ∧
    (∀ (i o : Nat) (b : Bool) (g ikt : Nat) (p sp : DType)
      (w : List (List ℚ)),
      exceptOk (Int4WeightOnlyQATLinear.init i o b g ikt p sp w) = true ↔
        b = false ∧ sp = DType.bfloat16 ∧ check_linear_int4_k i g = true) ∧
    (∀ (g ikt : Nat) (p sp : DType),
      exceptOk (Int4WeightOnlyQATQuantizer.init g ikt p sp) = true ↔
        ikt ∈ [2, 4, 8] ∧ g ∈ [32, 64, 128, 256]) ∧
    (∀ (o : Nat) (p sp : DType) (w : List (List ℚ)),
      exceptOk (Int8DynActInt4WeightQATLinear.init 256 o false 100 p sp w) =
        false) := by
  refine ⟨fun i o b g p sp w => ?_, fun i o b g ikt p sp w => ?_,
    fun g ikt p sp => ?_, fun o p sp w => ?_⟩
  · simp only [Int8DynActInt4WeightQATLinear.init]
    split_ifs <;> simp_all [exceptOk]
  · simp only [Int4WeightOnlyQATLinear.init]
    split_ifs <;> simp_all [exceptOk]
  · simp only [Int4WeightOnlyQATQuantizer.init]
    split_ifs <;> simp_all [exceptOk]
  · simp [Int8DynActInt4WeightQATLinear.init, exceptOk]

/-- C3 witness: the amended characterization applied at concrete
configurations — a valid 8da4w layer, a valid weight-only layer, a valid
quantizer, and the rejected `groupsize=100` / `in_features=256` layer. -/
theorem C3_construction_exact_witness :
    exceptOk (Int8DynActInt4WeightQATLinear.init 256 4 false 256
      DType.float32 DType.float32 [[1]]) = true ∧
    exceptOk (Int4WeightOnlyQATLinear.init 256 4 false 32 8
      DType.bfloat16 DType.bfloat16 [[1]]) = true ∧
    exceptOk (Int4WeightOnlyQATQuantizer.init 256 8
      DType.bfloat16 DType.bfloat16) = true ∧
    exceptOk (Int8DynActInt4WeightQATLinear.init 256 4 false 100
      DType.float32 DType.float32 [[1]]) = false :=
  ⟨(C3_construction_exact.1 256 4 false 256 DType.float32 DType.float32
      [[1]]).mpr (by decide),
    (C3_construction_exact.2.1 256 4 false 32 8 DType.bfloat16
      DType.bfloat16 [[1]]).mpr (by decide),
    (C3_construction_exact.2.2.1 256 8 DType.bfloat16 DType.bfloat16).mpr
      (by decide),
    C3_construction_exact.2.2.2 4 DType.float32 DType.float32 [[1]]⟩

/-- C4: the 8da4w convert pass replaces every QAT linear submodule at any
depth (none remains afterwards); each replacement preserves
`in_features`, `out_features`, `groupsize`, `precision` and
`scales_precision`, stores the symmetric 4-bit per-group qparams
(`qmin = -8`, `qmax = 7`) computed from the layer's current weight, and
stores the weight quantized per channel group with exactly those
parameters — all from the layer's fields alone, with no forward call
required. -/
theorem C4_convert_8da4w :
    (∀ m : Module, qatBelow (convert_qat_linear_8da4w m) = 0) ∧
    (∀ (n : String) (l : Int8DynActInt4WeightQATLinear) (rest : ModuleList),
      convertChildren8da4w (.cons n (.qat8 l) rest) =
        .cons n (.quantized8 (convertLayer8da4w l))
          (convertChildren8da4w rest)) ∧
    (∀ l : Int8DynActInt4WeightQATLinear,
      (convertLayer8da4w l).in_features = l.in_features ∧
      (convertLayer8da4w l).out_features = l.out_features ∧
      (convertLayer8da4w l).groupsize = l.groupsize ∧
      (convertLayer8da4w l).precision = l.precision ∧
      (convertLayer8da4w l).scales_precision = l.scales_precision ∧
      (convertLayer8da4w l).scales =
        (get_group_qparams_symmetric l.weight 4 l.groupsize).1 ∧
      (convertLayer8da4w l).zeros =
        (get_group_qparams_symmetric l.weight 4 l.groupsize).2 ∧
      (convertLayer8da4w l).weight =
        quantize_per_channel_group l.weight
          (get_group_qparams_symmetric l.weight 4 l.groupsize).1
          (get_group_qparams_symmetric l.weight 4 l.groupsize).2
          (-8) 7 l.groupsize) := by
  refine ⟨qatBelow_convert_zero, fun _ _ _ => rfl, fun l => ?_⟩
  refine ⟨rfl, rfl, rfl, rfl, rfl, rfl, rfl, ?_⟩
  norm_num [convertLayer8da4w, get_qmin_qmax]

end TorchaoSpec
